import Mathlib

/-!
# Verification of the egui/GStreamer video player glue code

Shallow embedding of `src/main.rs`: the appsink new-sample callback, the bus
watch closure, the `MediaPlayer` transport operations
(`play`/`pause`/`stop`/`seek`/`set_volume`/`update_position`/`load_file`), and
the per-tick `eframe::App::update` control flow, modelled as pure functions
over explicit state, with the external GStreamer framework's responses passed
in as oracle arguments and the commands sent to the framework made explicit in
the return values.

Machine floats (`f64`) are idealised as rationals; the `u32 -> i32` and
`f64 -> i64 -> u64` casts of the source are modelled explicitly.
-/

namespace VideoPlayer

/-- Rust's `u32 as i32` cast: reinterpret the low 32 bits as two's complement. -/
def u32AsI32 (n : Nat) : Int :=
  if n % 2 ^ 32 < 2 ^ 31 then (n % 2 ^ 32 : Int) else (n % 2 ^ 32 : Int) - 2 ^ 32

/-- Model of `VideoFrame` from `src/main.rs`: width, height and raw RGBA pixel bytes. -/
structure VideoFrame where
  width : Int
  height : Int
  data : List Nat
deriving Repr, DecidableEq

/-- Video dimensions extracted by `gst_video::VideoInfo::from_caps`
(`width()`/`height()` are `u32`). -/
structure VideoInfo where
  width : Nat
  height : Nat
deriving Repr, DecidableEq

/-- A caps object; `VideoInfo::from_caps` may fail, so the info is optional. -/
structure Caps where
  videoInfo : Option VideoInfo
deriving Repr, DecidableEq

/-- A GStreamer buffer; `map_readable` may fail, so the mapped bytes are
optional. -/
structure GstBuffer where
  mapReadable : Option (List Nat)
deriving Repr, DecidableEq

/-- A sample pulled from the appsink; `buffer()` and `caps()` may be absent. -/
structure Sample where
  buffer : Option GstBuffer
  caps : Option Caps
deriving Repr, DecidableEq

/-- Model of `gst::FlowError`/`gst::FlowSuccess` as returned by the callback. -/
inductive FlowResult where
  | ok
  | error
deriving Repr, DecidableEq

/-- The appsink `new_sample` callback from `MediaPlayer::new`
(src/main.rs lines 108-135): pull a sample, extract buffer, caps and video
info, copy the mapped buffer bytes, and overwrite the shared frame slot.
`pulled` is the result of `appsink.pull_sample()`; `slot` is the contents of
the shared `video_frame` mutex before the call. -/
def newSampleCallback (pulled : Option Sample) (slot : Option VideoFrame) :
    FlowResult × Option VideoFrame :=
  match pulled with
  | none => (.error, slot)
  | some sample =>
    match sample.buffer with
    | none => (.error, slot)
    | some buffer =>
      match sample.caps with
      | none => (.error, slot)
      | some caps =>
        match caps.videoInfo with
        | none => (.error, slot)
        | some info =>
          match buffer.mapReadable with
          | none => (.error, slot)
          | some bytes =>
            (.ok, some { width := u32AsI32 info.width,
                         height := u32AsI32 info.height,
                         data := bytes })

/-- Model of `gst::State`. -/
inductive GstState where
  | voidPending
  | null
  | ready
  | paused
  | playing
deriving Repr, DecidableEq

/-- The bus messages the watch closure distinguishes (`msg.view()`): errors,
end-of-stream, state-changed (with the `src == pipeline` pointer comparison
already evaluated to `srcIsPipeline`, `none` when the message has no source),
and everything else. -/
inductive GstMessage where
  | error (src : Option String) (err : String) (debug : Option String)
  | eos
  | stateChanged (srcIsPipeline : Option Bool) (old : GstState) (current : GstState)
  | other
deriving Repr, DecidableEq

/-- The observable effects of one bus-watch invocation: console prints and
pipeline state-change requests. -/
inductive BusEffect where
  | printError (src : Option String) (err : String) (debug : Option String)
  | printEos
  | setPipelineState (s : GstState)
  | printStateChanged (old : GstState) (current : GstState)
deriving Repr, DecidableEq

/-- Model of `glib::ControlFlow` returned by the watch. -/
inductive GControlFlow where
  | Continue
  | Break
deriving Repr, DecidableEq

/-- Does this bus effect mutate any pipeline or player state (as opposed to
only printing)? -/
def BusEffect.mutatesPlayer : BusEffect → Bool
  | .setPipelineState _ => true
  | _ => false

/-- The bus watch closure from `MediaPlayer::new` (src/main.rs lines 140-177).
`pipelineAlive` is whether `pipeline_weak.upgrade()` succeeded.  Errors are
printed; end-of-stream prints and requests the `Ready` state; state-changed
messages are printed only when their source is the pipeline itself
(`state.src().map(..ptr eq..).unwrap_or(false)`); everything else is ignored;
the closure always returns `Continue`. -/
def busWatchCallback (pipelineAlive : Bool) (msg : GstMessage) :
    List BusEffect × GControlFlow :=
  if pipelineAlive then
    match msg with
    | .error src e dbg => ([.printError src e dbg], .Continue)
    | .eos => ([.printEos, .setPipelineState .ready], .Continue)
    | .stateChanged srcIsPipeline old cur =>
        (if srcIsPipeline.getD false then [.printStateChanged old cur] else [],
         .Continue)
    | .other => ([], .Continue)
  else
    ([], .Continue)

/-- Model of `gst::StateChangeSuccess`. -/
inductive StateChangeSuccess where
  | success
  | async
  | noPreroll
deriving Repr, DecidableEq

/-- The outcome the framework reports for `pipeline.set_state(..)`:
`Ok(StateChangeSuccess)` or `Err` with an error message. -/
abbrev SetStateResult := Except String StateChangeSuccess

/-- Model of `PlayerError` from `src/main.rs`. -/
inductive PlayerError where
  | GstreamerError (msg : String)
  | InitializationError (msg : String)
deriving Repr, DecidableEq

/-- The `MediaPlayer` fields the transport operations read and write.
Durations and positions are `gst::ClockTime` nanosecond counts; the `f64`
volume is idealised as a rational. -/
structure PlayerState where
  duration : Option Nat
  position : Option Nat
  volume : ℚ
deriving Repr, DecidableEq

/-- The `MediaPlayer` field values set up by `MediaPlayer::new`. -/
def initialPlayerState : PlayerState :=
  { duration := none, position := some 0, volume := 1 }

/-- Commands the player sends to the GStreamer pipeline. -/
inductive PipelineCmd where
  | setState (s : GstState)
  | setVolumeProp (v : ℚ)
  | seekSimple (nsecs : Nat)
  | setUriProp (uri : String)
deriving Repr, DecidableEq

/-- Queries the player sends to the GStreamer pipeline. -/
inductive PipelineQuery where
  | queryPosition
  | queryDuration
deriving Repr, DecidableEq

/-- Result of one transport operation: the Rust return value, the player
state afterwards, and the commands issued to the pipeline, in order. -/
structure OpResult where
  result : Except PlayerError Unit
  state : PlayerState
  cmds : List PipelineCmd
deriving Repr

/-- Model of `MediaPlayer::play` (src/main.rs lines 236-243): request the `Playing`
state; on framework failure return `GstreamerError("Failed to play: ..")`. -/
def play (fw : SetStateResult) (s : PlayerState) : OpResult :=
  match fw with
  | .error e =>
      { result := .error (.GstreamerError ("Failed to play: " ++ e)),
        state := s, cmds := [.setState .playing] }
  | .ok _ => { result := .ok (), state := s, cmds := [.setState .playing] }

/-- Model of `MediaPlayer::pause` (src/main.rs lines 246-253): request the `Paused`
state; on framework failure return `GstreamerError("Failed to pause: ..")`. -/
def pause (fw : SetStateResult) (s : PlayerState) : OpResult :=
  match fw with
  | .error e =>
      { result := .error (.GstreamerError ("Failed to pause: " ++ e)),
        state := s, cmds := [.setState .paused] }
  | .ok _ => { result := .ok (), state := s, cmds := [.setState .paused] }

/-- Model of `MediaPlayer::stop` (src/main.rs lines 256-264): request the `Ready`
state; on success reset the stored position to zero; on failure the `?`
operator returns before the position write. -/
def stop (fw : SetStateResult) (s : PlayerState) : OpResult :=
  match fw with
  | .error e =>
      { result := .error (.GstreamerError ("Failed to stop: " ++ e)),
        state := s, cmds := [.setState .ready] }
  | .ok _ =>
      { result := .ok (), state := { s with position := some 0 },
        cmds := [.setState .ready] }

/-- Model of `MediaPlayer::set_null` (src/main.rs lines 226-233): request the `Null`
state; no player field is written. -/
def set_null (fw : SetStateResult) (s : PlayerState) : OpResult :=
  match fw with
  | .error e =>
      { result := .error (.GstreamerError ("Failed to set null: " ++ e)),
        state := s, cmds := [.setState .null] }
  | .ok _ => { result := .ok (), state := s, cmds := [.setState .null] }

/-- Rust `f64::clamp(min, max)` on the rational idealisation. -/
def rustClamp (v lo hi : ℚ) : ℚ :=
  if v < lo then lo else if v > hi then hi else v

/-- Model of `MediaPlayer::set_volume` (src/main.rs lines 215-218): clamp into
`[0.0, 1.0]`, store, and forward the clamped value to the pipeline's
`volume` property. -/
def set_volume (v : ℚ) (s : PlayerState) : PlayerState × List PipelineCmd :=
  let s' := { s with volume := rustClamp v 0 1 }
  (s', [.setVolumeProp s'.volume])

/-- Model of `MediaPlayer::toggle_playback` (src/main.rs lines 267-273): dispatch on
the pipeline's current state (`current` is what `get_state` returned). -/
def toggle_playback (current : GstState) (fw : SetStateResult)
    (s : PlayerState) : OpResult :=
  match current with
  | .playing => pause fw s
  | .paused => play fw s
  | .ready => play fw s
  | _ => { result := .ok (), state := s, cmds := [] }

/-- Model of `MediaPlayer::update_position` (src/main.rs lines 276-286): always query
the position and store it when the query succeeds; query the duration only
while no duration is cached, and cache it when that query succeeds.
`qp`/`qd` are the framework's answers to the two queries. -/
def update_position (qp qd : Option Nat) (s : PlayerState) :
    PlayerState × List PipelineQuery :=
  let s1 := match qp with
    | some p => { s with position := some p }
    | none => s
  match s1.duration with
  | none =>
      (match qd with
       | some d => ({ s1 with duration := some d },
                    [.queryPosition, .queryDuration])
       | none => (s1, [.queryPosition, .queryDuration]))
  | some _ => (s1, [.queryPosition])

/-- Rust `f64 as i64`: truncate toward zero, saturating at the `i64`
bounds (the rational idealisation never produces NaN). -/
def f64AsI64 (q : ℚ) : Int :=
  let t : Int := if 0 ≤ q then ⌊q⌋ else ⌈q⌉
  if t < -(2 ^ 63) then -(2 ^ 63) else if t > 2 ^ 63 - 1 then 2 ^ 63 - 1 else t

/-- Rust `i64 as u64`: reinterpret the two's-complement bits, i.e. reduce
mod `2^64`. -/
def i64AsU64 (n : Int) : Nat := (n % 2 ^ 64).toNat

/-- Model of `MediaPlayer::seek` (src/main.rs lines 289-300): when no duration is
cached, do nothing and return `Ok`; otherwise compute the target
`(p * duration.nseconds() as f64) as i64 as u64` nanoseconds and issue
`seek_simple`; `fw` is the framework's answer to `seek_simple`. -/
def seek (fw : Except String Unit) (p : ℚ) (s : PlayerState) : OpResult :=
  match s.duration with
  | none => { result := .ok (), state := s, cmds := [] }
  | some d =>
      let target := i64AsU64 (f64AsI64 (p * d))
      match fw with
      | .error e =>
          { result := .error (.GstreamerError ("Failed to seek: " ++ e)),
            state := s, cmds := [.seekSimple target] }
      | .ok _ =>
          { result := .ok (), state := s, cmds := [.seekSimple target] }

/-- Model of `MediaPlayer::load_file` (src/main.rs lines 204-212): stop, set the
`uri` property, clear the cached duration, zero the position, then play.
A failing `stop` propagates via `?` before any of that happens. -/
def load_file (fwStop fwPlay : SetStateResult) (path : String)
    (s : PlayerState) : OpResult :=
  let stopRes := stop fwStop s
  match stopRes.result with
  | .error e => { result := .error e, state := stopRes.state,
                  cmds := stopRes.cmds }
  | .ok _ =>
      let uri := "file://" ++ path
      let s2 := { stopRes.state with duration := none, position := some 0 }
      let playRes := play fwPlay s2
      { result := playRes.result, state := playRes.state,
        cmds := stopRes.cmds ++ [.setUriProp uri] ++ playRes.cmds }

/-- A call the UI dispatches to the `MediaPlayer` controller methods. -/
inductive ControllerCall where
  | togglePlayback
  | stopPlayback
  | seekTo (p : ℚ)
  | setVolumeTo (v : ℚ)
  | selectFile
  | toggleFullscreen
  | fullscreenOff
  | closeApp
deriving Repr, DecidableEq

/-- The widget groups laid out during one tick's redraw pass. -/
inductive PanelPart where
  | topPanel
  | playPauseButton
  | stopButton
  | positionSlider
  | timeLabel
  | volumeSlider
  | fullscreenButton
  | centralPanel
deriving Repr, DecidableEq

/-- The atomic steps of one `eframe::App::update` invocation, in program
order: GLib event processing, keyboard-shortcut dispatches, the
position/duration poll, the frame-to-texture fetch, widget draws,
clicked/dragged-control dispatches, and the final repaint request. -/
inductive UiEvent where
  | processGstEvents
  | keyDispatch (c : ControllerCall)
  | pollPosition
  | fetchFrame
  | draw (part : PanelPart)
  | clickDispatch (c : ControllerCall)
  | requestRepaint (ms : Nat)
deriving Repr, DecidableEq

/-- The per-tick inputs `update` reacts to: pressed keys, clicked buttons,
dragged sliders, and the state bits that gate which widgets appear. -/
structure UpdateInput where
  spacePressed : Bool
  escapePressed : Bool
  f11Pressed : Bool
  controlsShown : Bool
  openFileClicked : Bool
  quitClicked : Bool
  viewFullscreenClicked : Bool
  playPauseClicked : Bool
  stopClicked : Bool
  hasPosAndDur : Bool
  positionSliderDrag : Option ℚ
  volumeSliderDrag : Option ℚ
  fullscreenButtonClicked : Bool
  hasTexture : Bool
  centralSelectClicked : Bool

/-- Events emitted only when a condition held this tick. -/
def optEvents (b : Bool) (es : List UiEvent) : List UiEvent :=
  if b then es else []

/-- Events emitted when a slider was dragged to some value this tick. -/
def dragEvents (d : Option ℚ) (f : ℚ → UiEvent) : List UiEvent :=
  match d with
  | some v => [f v]
  | none => []

/-- The keyboard-shortcut block at the top of `update`
(src/main.rs lines 340-351). -/
def keyEvents (inp : UpdateInput) : List UiEvent :=
  optEvents inp.spacePressed [.keyDispatch .togglePlayback] ++
  optEvents inp.escapePressed [.keyDispatch .fullscreenOff] ++
  optEvents inp.f11Pressed [.keyDispatch .toggleFullscreen]

/-- The `top_panel` menu bar (src/main.rs lines 371-391). -/
def topPanelEvents (inp : UpdateInput) : List UiEvent :=
  [.draw .topPanel] ++
  optEvents inp.openFileClicked [.clickDispatch .selectFile] ++
  optEvents inp.quitClicked [.clickDispatch .closeApp] ++
  optEvents inp.viewFullscreenClicked [.clickDispatch .toggleFullscreen]

/-- The `video_controls` bottom panel (src/main.rs lines 394-454); the
position slider dispatches a seek only in the branch where both position
and duration are known (the other branch shows an inert slider). -/
def bottomPanelEvents (inp : UpdateInput) : List UiEvent :=
  [.draw .playPauseButton] ++
  optEvents inp.playPauseClicked [.clickDispatch .togglePlayback] ++
  [.draw .stopButton] ++
  optEvents inp.stopClicked [.clickDispatch .stopPlayback] ++
  [.draw .positionSlider] ++
  optEvents inp.hasPosAndDur
    (dragEvents inp.positionSliderDrag (fun p => .clickDispatch (.seekTo p))) ++
  [.draw .timeLabel, .draw .volumeSlider] ++
  dragEvents inp.volumeSliderDrag (fun v => .clickDispatch (.setVolumeTo v)) ++
  [.draw .fullscreenButton] ++
  optEvents inp.fullscreenButtonClicked [.clickDispatch .toggleFullscreen]

/-- The central video panel (src/main.rs lines 457-493); the "Select file"
button exists only when no texture is loaded. -/
def centralPanelEvents (inp : UpdateInput) : List UiEvent :=
  [.draw .centralPanel] ++
  optEvents (!inp.hasTexture && inp.centralSelectClicked)
    [.clickDispatch .selectFile]

/-- The three panel blocks of `update`, in program order; the top and
bottom panels are laid out only while the controls are shown. -/
def panelEvents (inp : UpdateInput) : List UiEvent :=
  optEvents inp.controlsShown (topPanelEvents inp) ++
  optEvents inp.controlsShown (bottomPanelEvents inp) ++
  centralPanelEvents inp

/-- The full event trace of one `eframe::App::update` invocation
(src/main.rs lines 335-497), in program order. -/
def updateTrace (inp : UpdateInput) : List UiEvent :=
  ([UiEvent.processGstEvents] ++ keyEvents inp ++
    [UiEvent.pollPosition, UiEvent.fetchFrame] ++ panelEvents inp) ++
  [UiEvent.requestRepaint 16]

/-- Is this event the position/duration poll? -/
def UiEvent.isPoll : UiEvent → Bool
  | .pollPosition => true
  | _ => false

/-- Is this event the frame-to-texture fetch? -/
def UiEvent.isFetch : UiEvent → Bool
  | .fetchFrame => true
  | _ => false

/-- Is this event a widget draw? -/
def UiEvent.isDraw : UiEvent → Bool
  | .draw _ => true
  | _ => false

/-- Is this event the dispatch of a clicked or dragged control? -/
def UiEvent.isClickDispatch : UiEvent → Bool
  | .clickDispatch _ => true
  | _ => false

/-- Predicate `eachBefore p q t`: in trace `t`, no `p`-event occurs after a
`q`-event; i.e. every `p`-event precedes every `q`-event. -/
def eachBefore (p q : UiEvent → Bool) : List UiEvent → Bool
  | [] => true
  | e :: rest =>
      (!(q e) || rest.all (fun x => !(p x))) && eachBefore p q rest

/-- One state-mutating `MediaPlayer` operation together with the framework
responses it consumes. -/
inductive PlayerOp where
  | opPlay (fw : SetStateResult)
  | opPause (fw : SetStateResult)
  | opStop (fw : SetStateResult)
  | opSetNull (fw : SetStateResult)
  | opTogglePlayback (current : GstState) (fw : SetStateResult)
  | opSetVolume (v : ℚ)
  | opUpdatePosition (qp qd : Option Nat)
  | opSeek (fw : Except String Unit) (p : ℚ)
  | opLoadFile (fwStop fwPlay : SetStateResult) (path : String)

/-- The player-state effect of one operation. -/
def stepOp (op : PlayerOp) (s : PlayerState) : PlayerState :=
  match op with
  | .opPlay fw => (play fw s).state
  | .opPause fw => (pause fw s).state
  | .opStop fw => (stop fw s).state
  | .opSetNull fw => (set_null fw s).state
  | .opTogglePlayback cur fw => (toggle_playback cur fw s).state
  | .opSetVolume v => (set_volume v s).1
  | .opUpdatePosition qp qd => (update_position qp qd s).1
  | .opSeek fw p => (seek fw p s).state
  | .opLoadFile fwStop fwPlay path => (load_file fwStop fwPlay path s).state

/-- Run a sequence of operations from a starting state. -/
def runOps (ops : List PlayerOp) (s : PlayerState) : PlayerState :=
  ops.foldl (fun st op => stepOp op st) s

/-- Is this operation a `set_volume` call? -/
def PlayerOp.isSetVolume : PlayerOp → Bool
  | .opSetVolume _ => true
  | _ => false

end VideoPlayer

namespace VideoPlayer

/-- C1: if the new-sample callback succeeds, the shared slot afterwards holds
`Some` frame whose width and height come from the sample's caps (via the
`u32 as i32` cast the source performs) and whose data is the byte-for-byte
copy of the mapped buffer; the result does not depend on what the slot held
before (last-write-wins). -/
theorem newSampleCallback_success_stores_frame
    (pulled : Option Sample) (slot : Option VideoFrame)
    (h : (newSampleCallback pulled slot).1 = FlowResult.ok) :
    ∃ sample buffer caps info bytes,
      pulled = some sample ∧
      sample.buffer = some buffer ∧
      sample.caps = some caps ∧
      caps.videoInfo = some info ∧
      buffer.mapReadable = some bytes ∧
      (newSampleCallback pulled slot).2 =
        some { width := u32AsI32 info.width,
               height := u32AsI32 info.height,
               data := bytes } ∧
      ∀ slot₂ : Option VideoFrame,
        (newSampleCallback pulled slot₂).2 =
          some { width := u32AsI32 info.width,
                 height := u32AsI32 info.height,
                 data := bytes } := by
  match pulled with
  | none => simp [newSampleCallback] at h
  | some sample =>
    match hb : sample.buffer with
    | none => simp [newSampleCallback, hb] at h
    | some buffer =>
      match hc : sample.caps with
      | none => simp [newSampleCallback, hb, hc] at h
      | some caps =>
        match hi : caps.videoInfo with
        | none => simp [newSampleCallback, hb, hc, hi] at h
        | some info =>
          match hm : buffer.mapReadable with
          | none => simp [newSampleCallback, hb, hc, hi, hm] at h
          | some bytes =>
            refine ⟨sample, buffer, caps, info, bytes, rfl, hb, hc, hi, hm, ?_, ?_⟩
            · simp [newSampleCallback, hb, hc, hi, hm]
            · intro slot₂
              simp [newSampleCallback, hb, hc, hi, hm]

/-- Witness for C1 at a concrete sample: a 2x1 RGBA sample whose buffer maps
to eight bytes; the callback succeeds and the slot is overwritten. -/
theorem newSampleCallback_success_stores_frame_witness :
    ∃ sample buffer caps info bytes,
      (some { buffer := some { mapReadable := some [1, 2, 3, 4, 5, 6, 7, 8] },
              caps := some { videoInfo := some { width := 2, height := 1 } } } :
        Option Sample) = some sample ∧
      sample.buffer = some buffer ∧
      sample.caps = some caps ∧
      caps.videoInfo = some info ∧
      buffer.mapReadable = some bytes ∧
      (newSampleCallback
        (some { buffer := some { mapReadable := some [1, 2, 3, 4, 5, 6, 7, 8] },
                caps := some { videoInfo := some { width := 2, height := 1 } } })
        (some { width := 9, height := 9, data := [0] })).2 =
        some { width := u32AsI32 info.width,
               height := u32AsI32 info.height,
               data := bytes } ∧
      ∀ slot₂ : Option VideoFrame,
        (newSampleCallback
          (some { buffer := some { mapReadable := some [1, 2, 3, 4, 5, 6, 7, 8] },
                  caps := some { videoInfo := some { width := 2, height := 1 } } })
          slot₂).2 =
          some { width := u32AsI32 info.width,
                 height := u32AsI32 info.height,
                 data := bytes } :=
  newSampleCallback_success_stores_frame _ _ (by decide)

/-- C3: when the bus listener handles an end-of-stream message (with the
pipeline still alive), it requests a transition of the pipeline to the
`Ready` state. -/
theorem busWatch_eos_requests_ready :
    BusEffect.setPipelineState GstState.ready ∈
      (busWatchCallback true GstMessage.eos).1 := by
  simp [busWatchCallback]

/-- C4: for every bus message other than end-of-stream, the bus listener
issues no state change and no player-state mutation (all its effects are
prints), and it returns `Continue`. -/
theorem busWatch_non_eos_only_prints
    (alive : Bool) (msg : GstMessage) (h : msg ≠ GstMessage.eos) :
    (∀ e ∈ (busWatchCallback alive msg).1, e.mutatesPlayer = false) ∧
      (busWatchCallback alive msg).2 = GControlFlow.Continue := by
  cases alive with
  | false => simp [busWatchCallback]
  | true =>
    cases msg with
    | error src e dbg => simp [busWatchCallback, BusEffect.mutatesPlayer]
    | eos => exact absurd rfl h
    | stateChanged flag old cur =>
      constructor
      · intro e he
        simp only [busWatchCallback] at he
        split at he
        · split at he
          · simp only [List.mem_singleton] at he
            subst he
            rfl
          · simp at he
        · simp at he
      · simp [busWatchCallback]
    | other => simp [busWatchCallback]

/-- Witness for C4 at a concrete non-EOS message (an error message): no
mutating effect, and the watch returns `Continue`. -/
theorem busWatch_non_eos_only_prints_witness :
    (∀ e ∈ (busWatchCallback true (GstMessage.error none "decode failed" none)).1,
        e.mutatesPlayer = false) ∧
      (busWatchCallback true (GstMessage.error none "decode failed" none)).2 =
        GControlFlow.Continue :=
  busWatch_non_eos_only_prints true (GstMessage.error none "decode failed" none)
    (by decide)

/-- C7 counterexample: it is not the case that every state-changed message
gets a log line; a state-changed message whose source is not the pipeline
(here `srcIsPipeline = some false`) produces no effects at all. -/
theorem busWatch_stateChanged_not_always_logged :
    ¬ (∀ (flag : Option Bool) (old cur : GstState),
        BusEffect.printStateChanged old cur ∈
          (busWatchCallback true (GstMessage.stateChanged flag old cur)).1) := by
  intro h
  have := h (some false) GstState.ready GstState.playing
  simp [busWatchCallback] at this

/-- Helper: the clamped volume is nonnegative. -/
lemma rustClamp01_nonneg (v : ℚ) : 0 ≤ rustClamp v 0 1 := by
  unfold rustClamp
  split_ifs <;> linarith

/-- Helper: the clamped volume is at most one. -/
lemma rustClamp01_le_one (v : ℚ) : rustClamp v 0 1 ≤ 1 := by
  unfold rustClamp
  split_ifs <;> linarith

/-- Helper: no operation other than `set_volume` writes the volume field. -/
lemma stepOp_volume (op : PlayerOp) (s : PlayerState)
    (h : op.isSetVolume = false) : (stepOp op s).volume = s.volume := by
  cases op with
  | opPlay fw => cases fw <;> rfl
  | opPause fw => cases fw <;> rfl
  | opStop fw => cases fw <;> rfl
  | opSetNull fw => cases fw <;> rfl
  | opTogglePlayback cur fw => cases cur <;> cases fw <;> rfl
  | opSetVolume v => simp [PlayerOp.isSetVolume] at h
  | opUpdatePosition qp qd =>
      rcases qp with _ | p <;> rcases qd with _ | d <;>
        rcases hs : s.duration with _ | d' <;>
          simp [stepOp, update_position, hs]
  | opSeek fw p =>
      rcases hs : s.duration with _ | d <;> cases fw <;>
        simp [stepOp, seek, hs]
  | opLoadFile f1 f2 path => cases f1 <;> cases f2 <;> rfl

/-- Helper: every reachable volume stays in the unit interval. -/
lemma runOps_volume_bounds (ops : List PlayerOp) (s : PlayerState)
    (h0 : 0 ≤ s.volume) (h1 : s.volume ≤ 1) :
    0 ≤ (runOps ops s).volume ∧ (runOps ops s).volume ≤ 1 := by
  induction ops generalizing s with
  | nil => exact ⟨h0, h1⟩
  | cons op rest ih =>
      have hstep : 0 ≤ (stepOp op s).volume ∧ (stepOp op s).volume ≤ 1 := by
        cases op with
        | opSetVolume v => exact ⟨rustClamp01_nonneg v, rustClamp01_le_one v⟩
        | opPlay fw =>
            rw [stepOp_volume (PlayerOp.opPlay fw) s rfl]; exact ⟨h0, h1⟩
        | opPause fw =>
            rw [stepOp_volume (PlayerOp.opPause fw) s rfl]; exact ⟨h0, h1⟩
        | opStop fw =>
            rw [stepOp_volume (PlayerOp.opStop fw) s rfl]; exact ⟨h0, h1⟩
        | opSetNull fw =>
            rw [stepOp_volume (PlayerOp.opSetNull fw) s rfl]; exact ⟨h0, h1⟩
        | opTogglePlayback cur fw =>
            rw [stepOp_volume (PlayerOp.opTogglePlayback cur fw) s rfl]
            exact ⟨h0, h1⟩
        | opUpdatePosition qp qd =>
            rw [stepOp_volume (PlayerOp.opUpdatePosition qp qd) s rfl]
            exact ⟨h0, h1⟩
        | opSeek fw p =>
            rw [stepOp_volume (PlayerOp.opSeek fw p) s rfl]; exact ⟨h0, h1⟩
        | opLoadFile f1 f2 path =>
            rw [stepOp_volume (PlayerOp.opLoadFile f1 f2 path) s rfl]
            exact ⟨h0, h1⟩
      exact ih (stepOp op s) hstep.1 hstep.2

/-- C2: play requests `Playing`, pause requests `Paused`, stop requests
`Ready`, each exactly once; each returns a `GstreamerError` wrapping the
framework's message exactly when `set_state` fails; and stop zeroes the
stored position on success. -/
theorem transport_ops_spec (fw : SetStateResult) (s : PlayerState) :
    (play fw s).cmds = [PipelineCmd.setState GstState.playing] ∧
    (pause fw s).cmds = [PipelineCmd.setState GstState.paused] ∧
    (stop fw s).cmds = [PipelineCmd.setState GstState.ready] ∧
    ((∃ m, (play fw s).result = .error (.GstreamerError m)) ↔
      ∃ e, fw = .error e) ∧
    ((∃ m, (pause fw s).result = .error (.GstreamerError m)) ↔
      ∃ e, fw = .error e) ∧
    ((∃ m, (stop fw s).result = .error (.GstreamerError m)) ↔
      ∃ e, fw = .error e) ∧
    (∀ e, fw = .error e →
      (play fw s).result = .error (.GstreamerError ("Failed to play: " ++ e)) ∧
      (pause fw s).result = .error (.GstreamerError ("Failed to pause: " ++ e)) ∧
      (stop fw s).result = .error (.GstreamerError ("Failed to stop: " ++ e))) ∧
    (∀ r, fw = .ok r →
      (play fw s).result = .ok () ∧
      (pause fw s).result = .ok () ∧
      (stop fw s).result = .ok () ∧
      (stop fw s).state.position = some 0) := by
  cases fw <;> simp [play, pause, stop]

/-- Witness for C2: with a failing framework call the error message is
wrapped; with a successful one, stop zeroes the position. -/
theorem transport_ops_spec_witness :
    (play (Except.error "boom") initialPlayerState).result =
      Except.error (PlayerError.GstreamerError ("Failed to play: " ++ "boom")) ∧
    (stop (Except.ok StateChangeSuccess.success) initialPlayerState).state.position =
      some 0 :=
  ⟨((transport_ops_spec (Except.error "boom")
      initialPlayerState).2.2.2.2.2.2.1 "boom" rfl).1,
   ((transport_ops_spec (Except.ok StateChangeSuccess.success)
      initialPlayerState).2.2.2.2.2.2.2 StateChangeSuccess.success rfl).2.2.2⟩

/-- C8: the volume starts at `1.0`; `set_volume` stores the argument
clamped into `[0, 1]` and forwards the clamped value to the pipeline; no
other operation writes the volume field; hence every reachable volume lies
in `[0, 1]`. -/
theorem volume_always_in_unit_interval :
    initialPlayerState.volume = 1 ∧
    (∀ v s, (set_volume v s).1.volume = rustClamp v 0 1 ∧
      0 ≤ rustClamp v 0 1 ∧ rustClamp v 0 1 ≤ 1 ∧
      (set_volume v s).2 = [PipelineCmd.setVolumeProp (rustClamp v 0 1)]) ∧
    (∀ op s, op.isSetVolume = false → (stepOp op s).volume = s.volume) ∧
    ∀ ops, 0 ≤ (runOps ops initialPlayerState).volume ∧
      (runOps ops initialPlayerState).volume ≤ 1 := by
  refine ⟨rfl, ?_, stepOp_volume, ?_⟩
  · intro v s
    exact ⟨rfl, rustClamp01_nonneg v, rustClamp01_le_one v, rfl⟩
  · intro ops
    exact runOps_volume_bounds ops initialPlayerState
      (by norm_num [initialPlayerState]) (by norm_num [initialPlayerState])

/-- Witness for C8: a non-`set_volume` operation leaves the volume alone,
and an out-of-range `set_volume` argument still leaves the reachable volume
inside `[0, 1]`. -/
theorem volume_always_in_unit_interval_witness :
    (stepOp (PlayerOp.opStop (Except.ok StateChangeSuccess.success))
        initialPlayerState).volume = initialPlayerState.volume ∧
    0 ≤ (runOps [PlayerOp.opSetVolume 2] initialPlayerState).volume ∧
    (runOps [PlayerOp.opSetVolume 2] initialPlayerState).volume ≤ 1 :=
  ⟨volume_always_in_unit_interval.2.2.1 _ initialPlayerState rfl,
   (volume_always_in_unit_interval.2.2.2 [PlayerOp.opSetVolume 2]).1,
   (volume_always_in_unit_interval.2.2.2 [PlayerOp.opSetVolume 2]).2⟩

/-- Helper: for a fraction in `[0, 1]` of a duration below `2^63` the
`f64 as i64` cast is plain truncation (no saturation). -/
lemma f64AsI64_of_unit (p : ℚ) (d : ℕ) (hp0 : 0 ≤ p) (hp1 : p ≤ 1)
    (hd : d < 2 ^ 63) : f64AsI64 (p * d) = ⌊p * (d : ℚ)⌋ := by
  have hd0 : (0 : ℚ) ≤ (d : ℚ) := by positivity
  have h0 : (0 : ℚ) ≤ p * d := mul_nonneg hp0 hd0
  have hfl0 : 0 ≤ ⌊p * (d : ℚ)⌋ := Int.floor_nonneg.mpr h0
  have hub : p * (d : ℚ) ≤ (d : ℚ) := by nlinarith
  have hfl : ⌊p * (d : ℚ)⌋ ≤ (d : ℤ) := by
    have := Int.floor_le_floor hub
    rwa [Int.floor_natCast] at this
  have hdZ : (d : ℤ) ≤ 2 ^ 63 - 1 := by
    have : (d : ℤ) < 2 ^ 63 := by exact_mod_cast hd
    omega
  unfold f64AsI64
  rw [if_pos h0, if_neg (by omega), if_neg (by omega)]

/-- Helper: `i64 as u64` is the identity on nonnegative values below
`2^64`. -/
lemma i64AsU64_of_nonneg (n : ℤ) (h0 : 0 ≤ n) (h : n < 2 ^ 64) :
    i64AsU64 n = n.toNat := by
  unfold i64AsU64
  rw [Int.emod_eq_of_lt h0 h]

/-- C9: with no cached duration, seek is a silent no-op returning `Ok`;
with duration `d`, the single seek command targets
`(p * d) as i64 as u64` nanoseconds, which for `p ∈ [0, 1]` and `d < 2^63`
is exactly `⌊p * d⌋` nanoseconds. -/
theorem seek_targets :
    (∀ fw p s, s.duration = none →
      seek fw p s = { result := Except.ok (), state := s, cmds := [] }) ∧
    (∀ fw p (d : ℕ) s, s.duration = some d →
      (seek fw p s).cmds =
        [PipelineCmd.seekSimple (i64AsU64 (f64AsI64 (p * d)))] ∧
      (seek fw p s).state = s) ∧
    (∀ fw p (d : ℕ) s, s.duration = some d → 0 ≤ p → p ≤ 1 → d < 2 ^ 63 →
      (seek fw p s).cmds =
        [PipelineCmd.seekSimple (Int.toNat ⌊p * (d : ℚ)⌋)]) := by
  refine ⟨?_, ?_, ?_⟩
  · intro fw p s h
    simp [seek, h]
  · intro fw p d s h
    cases fw <;> simp [seek, h]
  · intro fw p d s h hp0 hp1 hd
    have htr := f64AsI64_of_unit p d hp0 hp1 hd
    have hfl0 : 0 ≤ ⌊p * (d : ℚ)⌋ :=
      Int.floor_nonneg.mpr (mul_nonneg hp0 (by positivity))
    have hub : ⌊p * (d : ℚ)⌋ < 2 ^ 64 := by
      have hq : p * (d : ℚ) ≤ (d : ℚ) := by nlinarith [show (0:ℚ) ≤ (d:ℚ) by positivity]
      have h1 := Int.floor_le_floor hq
      rw [Int.floor_natCast] at h1
      have : (d : ℤ) < 2 ^ 63 := by exact_mod_cast hd
      omega
    have hcast := i64AsU64_of_nonneg _ hfl0 hub
    cases fw <;> simp [seek, h, htr, hcast]

/-- Witness for C9: seeking with no duration cached does nothing; seeking
halfway through a 10 ns video targets nanosecond 5. -/
theorem seek_targets_witness :
    seek (Except.ok ()) (1 / 2) initialPlayerState =
      { result := Except.ok (), state := initialPlayerState, cmds := [] } ∧
    (seek (Except.ok ()) (1 / 2)
        { duration := some 10, position := none, volume := 1 }).cmds =
      [PipelineCmd.seekSimple (Int.toNat ⌊(1 / 2 : ℚ) * ((10 : ℕ) : ℚ)⌋)] :=
  ⟨seek_targets.1 _ _ _ rfl,
   seek_targets.2.2 (Except.ok ()) (1 / 2) 10
     { duration := some 10, position := none, volume := 1 }
     rfl (by norm_num) (by norm_num) (by norm_num)⟩

/-- C10: a failed position query leaves the stored position unchanged; once
the duration is cached, `update_position` neither queries the duration
again nor overwrites it; and a (successful) `load_file` resets the cached
duration to `None`. -/
theorem update_position_frame_conditions :
    (∀ qd s, (update_position none qd s).1.position = s.position) ∧
    (∀ qp qd (d : ℕ) s, s.duration = some d →
      (update_position qp qd s).1.duration = some d ∧
      (update_position qp qd s).2 = [PipelineQuery.queryPosition] ∧
      PipelineQuery.queryDuration ∉ (update_position qp qd s).2) ∧
    (∀ fwStop fwPlay path s r, fwStop = Except.ok r →
      (load_file fwStop fwPlay path s).state.duration = none) := by
  refine ⟨?_, ?_, ?_⟩
  · intro qd s
    rcases hs : s.duration with _ | d <;> rcases qd with _ | d' <;>
      simp [update_position, hs]
  · intro qp qd d s h
    rcases qp with _ | p <;> simp [update_position, h]
  · intro fwStop fwPlay path s r h
    subst h
    cases fwPlay <;> rfl

/-- Witness for C10: concrete failed position query, cached duration, and
successful reload. -/
theorem update_position_frame_conditions_witness :
    (update_position none (some 5) initialPlayerState).1.position =
      initialPlayerState.position ∧
    (update_position (some 3) (some 5)
        { duration := some 7, position := none, volume := 1 }).1.duration =
      some 7 ∧
    (load_file (Except.ok StateChangeSuccess.success)
        (Except.ok StateChangeSuccess.success) "/tmp/a.mp4"
        { duration := some 7, position := none, volume := 1 }).state.duration =
      none :=
  ⟨update_position_frame_conditions.1 (some 5) initialPlayerState,
   (update_position_frame_conditions.2.1 (some 3) (some 5) 7
     { duration := some 7, position := none, volume := 1 } rfl).1,
   update_position_frame_conditions.2.2 _ (Except.ok StateChangeSuccess.success)
     "/tmp/a.mp4" { duration := some 7, position := none, volume := 1 }
     StateChangeSuccess.success rfl⟩

/-- Helper: a conditional block keeps an `all` property of its body. -/
lemma all_optEvents {p : UiEvent → Bool} (b : Bool) {es : List UiEvent}
    (h : es.all p = true) : (optEvents b es).all p = true := by
  cases b <;> simp [optEvents, h]

/-- Helper: every top-panel event is a draw or a click dispatch. -/
lemma topPanelEvents_all (inp : UpdateInput) :
    (topPanelEvents inp).all (fun e => e.isDraw || e.isClickDispatch) = true := by
  rcases inp with ⟨sp, esc, f11, cs, ofc, qc, vfc, ppc, stc, hpd, psd, vsd, fbc, ht, csc⟩
  cases ofc <;> cases qc <;> cases vfc <;> rfl

/-- Helper: every bottom-panel event is a draw or a click dispatch. -/
lemma bottomPanelEvents_all (inp : UpdateInput) :
    (bottomPanelEvents inp).all (fun e => e.isDraw || e.isClickDispatch) = true := by
  rcases inp with ⟨sp, esc, f11, cs, ofc, qc, vfc, ppc, stc, hpd, psd, vsd, fbc, ht, csc⟩
  rcases psd with _ | p <;> rcases vsd with _ | v <;> cases ppc <;> cases stc <;>
    cases hpd <;> cases fbc <;> rfl

/-- Helper: every central-panel event is a draw or a click dispatch. -/
lemma centralPanelEvents_all (inp : UpdateInput) :
    (centralPanelEvents inp).all (fun e => e.isDraw || e.isClickDispatch) = true := by
  rcases inp with ⟨sp, esc, f11, cs, ofc, qc, vfc, ppc, stc, hpd, psd, vsd, fbc, ht, csc⟩
  cases ht <;> cases csc <;> rfl

/-- Helper: every event of the redraw pass is a draw or a click dispatch. -/
lemma panelEvents_all (inp : UpdateInput) :
    (panelEvents inp).all (fun e => e.isDraw || e.isClickDispatch) = true := by
  simp only [panelEvents, List.all_append, Bool.and_eq_true]
  exact ⟨⟨all_optEvents _ (topPanelEvents_all inp),
          all_optEvents _ (bottomPanelEvents_all inp)⟩,
         centralPanelEvents_all inp⟩

/-- Helper: before the poll there are only the GLib event pump and keyboard
dispatches: no draw, no click dispatch, no poll, no fetch. -/
lemma preEvents_all (inp : UpdateInput) :
    ([UiEvent.processGstEvents] ++ keyEvents inp).all
      (fun e => !e.isDraw && !e.isClickDispatch && !e.isPoll && !e.isFetch) =
      true := by
  rcases inp with ⟨sp, esc, f11, cs, ofc, qc, vfc, ppc, stc, hpd, psd, vsd, fbc, ht, csc⟩
  cases sp <;> cases esc <;> cases f11 <;> rfl

/-- A tick on which only the stop button is clicked, with the controls
visible and a texture loaded. -/
def stopOnlyInput : UpdateInput :=
  { spacePressed := false, escapePressed := false, f11Pressed := false,
    controlsShown := true, openFileClicked := false, quitClicked := false,
    viewFullscreenClicked := false, playPauseClicked := false,
    stopClicked := true, hasPosAndDur := false, positionSliderDrag := none,
    volumeSliderDrag := none, fullscreenButtonClicked := false,
    hasTexture := true, centralSelectClicked := false }

/-- C5 counterexample: it is not the case that every tick dispatches
clicked controls only after the whole redraw; on a tick where only the
stop button is clicked, the stop dispatch happens while later widgets (the
slider, the central video panel) are still to be drawn. -/
theorem update_dispatch_not_after_redraw :
    ¬ (∀ inp : UpdateInput,
        eachBefore UiEvent.isPoll UiEvent.isFetch (updateTrace inp) = true ∧
        eachBefore UiEvent.isFetch UiEvent.isDraw (updateTrace inp) = true ∧
        eachBefore UiEvent.isDraw UiEvent.isClickDispatch (updateTrace inp) =
          true) := by
  intro h
  exact absurd (h stopOnlyInput).2.2 (by decide)

/-- C5 amended: every tick runs the GLib pump and keyboard handling (no
draws, no control dispatches), then polls position/duration, then fetches
the latest frame into a texture, then performs the redraw pass — during
which every event is either a widget draw or the dispatch of a clicked or
dragged control, interleaved in layout order rather than dispatch coming
strictly after all drawing — and finally requests the next repaint. -/
theorem update_tick_order (inp : UpdateInput) :
    ∃ pre post,
      updateTrace inp =
        pre ++ [UiEvent.pollPosition, UiEvent.fetchFrame] ++ post ++
          [UiEvent.requestRepaint 16] ∧
      pre.all
        (fun e => !e.isDraw && !e.isClickDispatch && !e.isPoll && !e.isFetch) =
        true ∧
      post.all (fun e => e.isDraw || e.isClickDispatch) = true ∧
      post = panelEvents inp := by
  refine ⟨[UiEvent.processGstEvents] ++ keyEvents inp, panelEvents inp,
    ?_, preEvents_all inp, panelEvents_all inp, rfl⟩
  simp [updateTrace, List.append_assoc]

/-- C6: every invocation of `update` ends with the unconditional
`request_repaint_after(16 ms)` call. -/
theorem update_ends_with_repaint_16ms (inp : UpdateInput) :
    (updateTrace inp).getLast? = some (UiEvent.requestRepaint 16) := by
  unfold updateTrace
  rw [List.getLast?_append_cons]
  rfl

/-- C7 amended: the bus listener logs a state-changed message if and only if
the pipeline is alive and the message's source is the pipeline itself. -/
theorem busWatch_stateChanged_logged_iff
    (alive : Bool) (flag : Option Bool) (old cur : GstState) :
    BusEffect.printStateChanged old cur ∈
        (busWatchCallback alive (GstMessage.stateChanged flag old cur)).1 ↔
      (alive = true ∧ flag = some true) := by
  cases alive with
  | false => simp [busWatchCallback]
  | true =>
    cases flag with
    | none => simp [busWatchCallback]
    | some b => cases b <;> simp [busWatchCallback]

end VideoPlayer
